import Mathlib

/-!
Verification of the image-slider / fullscreen-modal subsystem of the
verbalcodeai.github.io page scripts.

The JavaScript source exists in two near-duplicate copies:
  - src/unnamed/part_000 (asynchronous pre-load variant of the slider), and
  - src/assets/js/animations.js (synchronous-commit variant).
The definitions below are a shallow embedding of the functions
initializeImageSlider, updateSlider and setupImageFullscreen from those
files.  JavaScript numbers are modelled as Int (so that the expression
images.length - 1 can validly be -1 on an empty list, exactly as in JS),
DOM style/text properties as String fields of explicit state records, and
the asynchronous image pre-load as an explicit load-outcome parameter fed
to the commit that the source installs as onload/onerror.
-/

/-- An element of the hardcoded images array of initializeImageSlider:
a record with a src and a caption string. -/
structure ImageEntry where
  src : String
  caption : String
deriving DecidableEq

/-- The hardcoded images array that both copies of initializeImageSlider
define (identical in src/unnamed/part_000 and src/assets/js/animations.js). -/
def images : List ImageEntry :=
  [ { src := "assets/images/Main Menu Showcase.PNG", caption := "Main Menu" },
    { src := "assets/images/Agent Showcase.png", caption := "Agent Mode Showcase" },
    { src := "assets/images/Agent Mode New commands.PNG", caption := "Agent Mode - New Commands" },
    { src := "assets/images/Second Agent.PNG", caption := "Agent Mode - Example Interaction" },
    { src := "assets/images/First Implementation Chat With Ai.png", caption := "Chat With AI - Initial Query" },
    { src := "assets/images/Second Implementation Chat With Ai.PNG", caption := "Chat With AI - Follow-up" } ]

/-- A click on one of the two slider navigation buttons. -/
inductive Click where
  | next
  | prev
deriving DecidableEq

/-- The index update of the nextButton click handler in
src/unnamed/part_000: currentIndex = (currentIndex < images.length - 1) ?
currentIndex + 1 : 0, with n = images.length. -/
def goNext (n i : Int) : Int :=
  if i < n - 1 then i + 1 else 0

/-- The index update of the prevButton click handler in
src/unnamed/part_000: currentIndex = (currentIndex > 0) ?
currentIndex - 1 : images.length - 1, with n = images.length. -/
def goPrevious (n i : Int) : Int :=
  if i > 0 then i - 1 else n - 1

/-- Dispatch of one button click to its index update (part_000 variant). -/
def clickIndex (n : Int) : Click → Int → Int
  | Click.next, i => goNext n i
  | Click.prev, i => goPrevious n i

/-- The currentIndex value reached from start index i after processing a
sequence of button clicks, part_000 variant. -/
def runClicks (n : Int) (clicks : List Click) (i : Int) : Int :=
  clicks.foldl (fun j c => clickIndex n c j) i

/-- The index update of the nextButton click handler in
src/assets/js/animations.js (line 274), embedded separately from the
part_000 copy. -/
def goNextA (n i : Int) : Int :=
  if i < n - 1 then i + 1 else 0

/-- The index update of the prevButton click handler in
src/assets/js/animations.js (line 269), embedded separately from the
part_000 copy. -/
def goPreviousA (n i : Int) : Int :=
  if i > 0 then i - 1 else n - 1

/-- Dispatch of one button click to its index update, animations.js variant. -/
def clickIndexA (n : Int) : Click → Int → Int
  | Click.next, i => goNextA n i
  | Click.prev, i => goPreviousA n i

/-- The currentIndex value reached from start index i after a sequence of
button clicks, animations.js variant. -/
def runClicksA (n : Int) (clicks : List Click) (i : Int) : Int :=
  clicks.foldl (fun j c => clickIndexA n c j) i

/-- Unfolding one click of runClicks. -/
theorem runClicks_cons (n : Int) (c : Click) (cs : List Click) (i : Int) :
    runClicks n (c :: cs) i = runClicks n cs (clickIndex n c i) := rfl

/-- Unfolding one click of runClicksA. -/
theorem runClicksA_cons (n : Int) (c : Click) (cs : List Click) (i : Int) :
    runClicksA n (c :: cs) i = runClicksA n cs (clickIndexA n c i) := rfl

/-- A single click keeps the index inside the valid range when the entry
list is non-empty. -/
theorem clickIndex_range (n : Int) (hn : 0 < n) (c : Click) (i : Int)
    (h0 : 0 ≤ i) (h1 : i < n) :
    0 ≤ clickIndex n c i ∧ clickIndex n c i < n := by
  cases c <;> simp only [clickIndex, goNext, goPrevious] <;> split <;> omega

/-- Every finite click sequence keeps the index inside the valid range. -/
theorem runClicks_in_range (n : Int) (hn : 0 < n) (clicks : List Click) :
    ∀ i : Int, 0 ≤ i → i < n → 0 ≤ runClicks n clicks i ∧ runClicks n clicks i < n := by
  induction clicks with
  | nil => intro i h0 h1; exact ⟨h0, h1⟩
  | cons c cs ih =>
    intro i h0 h1
    rw [runClicks_cons]
    have hc := clickIndex_range n hn c i h0 h1
    exact ih _ hc.1 hc.2

/-- Claim C1: for every non-empty entry list of length n and every finite
sequence of goNext/goPrevious clicks starting from currentIndex = 0, the
resulting currentIndex satisfies 0 ≤ currentIndex < n; since every prefix
of a sequence is itself a sequence, the invariant holds after each click. -/
theorem slider_currentIndex_in_range (entries : List ImageEntry) (clicks : List Click)
    (h : 0 < entries.length) :
    0 ≤ runClicks (entries.length : Int) clicks 0 ∧
    runClicks (entries.length : Int) clicks 0 < (entries.length : Int) :=
  runClicks_in_range (entries.length : Int) (by exact_mod_cast h) clicks 0
    le_rfl (by exact_mod_cast h)

/-- Witness for C1 at the hardcoded images list and a concrete click
sequence. -/
theorem slider_currentIndex_in_range_witness :
    0 < images.length ∧
    (0 ≤ runClicks (images.length : Int) [Click.prev, Click.next, Click.prev, Click.prev] 0 ∧
     runClicks (images.length : Int) [Click.prev, Click.next, Click.prev, Click.prev] 0 < (images.length : Int)) :=
  ⟨by decide, slider_currentIndex_in_range images [Click.prev, Click.next, Click.prev, Click.prev] (by decide)⟩

/-- On a valid index, goNext is the successor modulo n. -/
theorem goNext_eq_emod (n i : Int) (h0 : 0 ≤ i) (h1 : i < n) :
    goNext n i = (i + 1) % n := by
  unfold goNext
  split
  · rw [Int.emod_eq_of_lt (by omega) (by omega)]
  · have hi : i = n - 1 := by omega
    subst hi
    have h : n - 1 + 1 = n := by ring
    rw [h, Int.emod_self]

/-- On a valid index, goPrevious is addition of n - 1 modulo n. -/
theorem goPrevious_eq_emod (n i : Int) (h0 : 0 ≤ i) (h1 : i < n) :
    goPrevious n i = (i + (n - 1)) % n := by
  unfold goPrevious
  split
  · have h : i + (n - 1) = (i - 1) + n * 1 := by ring
    rw [h, Int.add_mul_emod_self_left, Int.emod_eq_of_lt (by omega) (by omega)]
  · have hi : i = 0 := by omega
    subst hi
    have h : (0 : Int) + (n - 1) = n - 1 := by ring
    rw [h, Int.emod_eq_of_lt (by omega) (by omega)]

/-- Iterating goNext k times adds k modulo n. -/
theorem runClicks_replicate_next (n : Int) (hn : 0 < n) :
    ∀ (k : Nat) (i : Int), 0 ≤ i → i < n →
      runClicks n (List.replicate k Click.next) i = (i + (k : Int)) % n := by
  intro k
  induction k with
  | zero =>
    intro i h0 h1
    simpa [runClicks] using (Int.emod_eq_of_lt h0 h1).symm
  | succ k ih =>
    intro i h0 h1
    rw [List.replicate_succ, runClicks_cons]
    have hstep : clickIndex n Click.next i = (i + 1) % n := goNext_eq_emod n i h0 h1
    rw [hstep, ih ((i + 1) % n) (Int.emod_nonneg _ (by omega)) (Int.emod_lt_of_pos _ hn),
      Int.emod_add_emod]
    congr 1
    push_cast
    ring

/-- Iterating goPrevious k times adds k * (n - 1) modulo n. -/
theorem runClicks_replicate_prev (n : Int) (hn : 0 < n) :
    ∀ (k : Nat) (i : Int), 0 ≤ i → i < n →
      runClicks n (List.replicate k Click.prev) i = (i + (k : Int) * (n - 1)) % n := by
  intro k
  induction k with
  | zero =>
    intro i h0 h1
    simpa [runClicks] using (Int.emod_eq_of_lt h0 h1).symm
  | succ k ih =>
    intro i h0 h1
    rw [List.replicate_succ, runClicks_cons]
    have hstep : clickIndex n Click.prev i = (i + (n - 1)) % n := goPrevious_eq_emod n i h0 h1
    rw [hstep, ih ((i + (n - 1)) % n) (Int.emod_nonneg _ (by omega)) (Int.emod_lt_of_pos _ hn),
      Int.emod_add_emod]
    congr 1
    push_cast
    ring

/-- Claim C3: on a non-empty entry list of length n, composing goNext
n times returns currentIndex to its starting value, and so does composing
goPrevious n times, for every valid starting index. -/
theorem slider_cycle_order (entries : List ImageEntry) (i : Int)
    (h0 : 0 ≤ i) (h1 : i < (entries.length : Int)) :
    runClicks (entries.length : Int) (List.replicate entries.length Click.next) i = i ∧
    runClicks (entries.length : Int) (List.replicate entries.length Click.prev) i = i := by
  have hn : 0 < (entries.length : Int) := by omega
  constructor
  · rw [runClicks_replicate_next (entries.length : Int) hn entries.length i h0 h1]
    have h : i + (entries.length : Int) = i + (entries.length : Int) * 1 := by ring
    rw [h, Int.add_mul_emod_self_left, Int.emod_eq_of_lt h0 h1]
  · rw [runClicks_replicate_prev (entries.length : Int) hn entries.length i h0 h1]
    rw [Int.add_mul_emod_self_left, Int.emod_eq_of_lt h0 h1]

/-- Witness for C3 at the hardcoded images list and starting index 2. -/
theorem slider_cycle_order_witness :
    0 ≤ (2 : Int) ∧ (2 : Int) < (images.length : Int) ∧
    (runClicks (images.length : Int) (List.replicate images.length Click.next) 2 = 2 ∧
     runClicks (images.length : Int) (List.replicate images.length Click.prev) 2 = 2) :=
  ⟨by decide, by decide, slider_cycle_order images 2 (by decide) (by decide)⟩

/-- Claim C10: the animations.js copy and the part_000 copy of the slider
compute the same currentIndex after any identical sequence of
previous/next clicks over the same entry list, from any starting index. -/
theorem slider_copies_same_index (entries : List ImageEntry) (clicks : List Click) (i : Int) :
    runClicksA (entries.length : Int) clicks i = runClicks (entries.length : Int) clicks i := by
  induction clicks generalizing i with
  | nil => rfl
  | cons c cs ih =>
    rw [runClicks_cons, runClicksA_cons, ih]
    cases c <;> rfl

/-- The slider-related DOM state that initializeImageSlider and
updateSlider in src/unnamed/part_000 read and write: style and text
properties of the sliderImage, imageCaption, prevButton and nextButton
elements. -/
structure SliderDom where
  imageSrc : String
  imageAlt : String
  imageOpacity : String
  imageDisplay : String
  captionText : String
  captionDisplay : String
  prevDisplay : String
  nextDisplay : String
deriving DecidableEq

/-- JavaScript array indexing images[i] for a possibly negative Int index:
some entry when 0 ≤ i < length, none (undefined) otherwise. -/
def entryAt (entries : List ImageEntry) (i : Int) : Option ImageEntry :=
  if h : 0 ≤ i ∧ i.toNat < entries.length then
    some (entries.get ⟨i.toNat, h.2⟩)
  else none

/-- The img.onload commit installed by updateSlider in part_000: sets the
visible image src and alt and the caption text from the entry and restores
opacity to 1. -/
def onloadCommit (e : ImageEntry) (d : SliderDom) : SliderDom :=
  { d with imageSrc := e.src, imageAlt := e.caption,
           captionText := e.caption, imageOpacity := "1" }

/-- The img.onerror commit installed by updateSlider in part_000: empty
src, alt and caption both the fixed failure text, opacity restored to 1. -/
def onerrorCommit (d : SliderDom) : SliderDom :=
  { d with imageSrc := "", imageAlt := "Image failed to load",
           captionText := "Image failed to load", imageOpacity := "1" }

/-- updateSlider from src/unnamed/part_000, run to completion of its
pre-load: first the synchronous half (opacity lowered to 0.5, the entry at
currentIndex read to start the pre-load), then the commit selected by the
load outcome loadOk.  When the entry lookup hits undefined (index out of
range, possible only through the empty-entries prev-click path) reading
.src of undefined throws a TypeError; the Bool component records that a
throw happened, with the DOM left as the synchronous half made it. -/
def updateSlider (entries : List ImageEntry) (i : Int) (loadOk : Bool)
    (d : SliderDom) : SliderDom × Bool :=
  let d1 := { d with imageOpacity := "0.5" }
  match entryAt entries i with
  | none => (d1, true)
  | some e => (if loadOk then onloadCommit e d1 else onerrorCommit d1, false)

/-- The full slider state: the currentIndex closure variable plus the DOM. -/
structure SliderState where
  currentIndex : Int
  dom : SliderDom
deriving DecidableEq

/-- The prevButton click handler of part_000: update currentIndex, then
run updateSlider (with the given pre-load outcome).  The Bool component
propagates whether updateSlider threw. -/
def clickPrevious (entries : List ImageEntry) (loadOk : Bool)
    (s : SliderState) : SliderState × Bool :=
  let i := goPrevious (entries.length : Int) s.currentIndex
  let r := updateSlider entries i loadOk s.dom
  (⟨i, r.1⟩, r.2)

/-- The nextButton click handler of part_000: update currentIndex, then
run updateSlider (with the given pre-load outcome). -/
def clickNext (entries : List ImageEntry) (loadOk : Bool)
    (s : SliderState) : SliderState × Bool :=
  let i := goNext (entries.length : Int) s.currentIndex
  let r := updateSlider entries i loadOk s.dom
  (⟨i, r.1⟩, r.2)

/-- Which of the four required slider elements getElementById finds, plus
the initial DOM state they carry. -/
structure SliderPage where
  hasSliderImage : Bool
  hasImageCaption : Bool
  hasPrevButton : Bool
  hasNextButton : Bool
  dom : SliderDom
deriving DecidableEq

/-- The observable result of running initializeImageSlider from
src/unnamed/part_000: the currentIndex variable, the DOM after the
synchronous part of initialization, whether the two click handlers were
attached, the console messages emitted, and the index whose pre-load the
initial updateSlider call started (none when no updateSlider call was
made).  The function is total: no path of the embedded source throws. -/
structure InitResult where
  currentIndex : Int
  dom : SliderDom
  handlersAttached : Bool
  logs : List String
  pendingLoadOf : Option Int
deriving DecidableEq

/-- initializeImageSlider from src/unnamed/part_000.  It logs the element
lookup, aborts with a console.error when any of the four elements is
missing, otherwise renders entries[0] synchronously when entries is
non-empty, attaches the two click handlers, and then either calls
updateSlider() (non-empty case: opacity drops to 0.5 and the pre-load of
entry 0 starts) or writes the disabled state (empty case: fallback caption
text and display none on the image and the two buttons - the caption
element's own display is never written). -/
def initializeImageSlider (entries : List ImageEntry) (p : SliderPage) : InitResult :=
  if p.hasSliderImage && p.hasImageCaption && p.hasPrevButton && p.hasNextButton then
    let d1 :=
      if h : 0 < entries.length then
        let e := entries.get ⟨0, h⟩
        { p.dom with imageSrc := e.src, imageAlt := e.caption, captionText := e.caption }
      else p.dom
    if 0 < entries.length then
      let d2 := { d1 with imageOpacity := "0.5" }
      { currentIndex := 0
        dom := d2
        handlersAttached := true
        logs := ["Image slider elements:"]
        pendingLoadOf := some 0 }
    else
      let d2 := { d1 with captionText := "No images to display.",
                          imageDisplay := "none", prevDisplay := "none",
                          nextDisplay := "none" }
      { currentIndex := 0
        dom := d2
        handlersAttached := true
        logs := ["Image slider elements:"]
        pendingLoadOf := none }
  else
    { currentIndex := 0
      dom := p.dom
      handlersAttached := false
      logs := ["Image slider elements:", "Image slider elements not found"]
      pendingLoadOf := none }

/-- A concrete page on which all four slider elements are present, with
neutral initial DOM values. -/
def pageAllPresent : SliderPage :=
  { hasSliderImage := true, hasImageCaption := true,
    hasPrevButton := true, hasNextButton := true,
    dom := { imageSrc := "", imageAlt := "", imageOpacity := "1",
             imageDisplay := "block", captionText := "", captionDisplay := "block",
             prevDisplay := "block", nextDisplay := "block" } }

/-- Valid indices are found by entryAt. -/
theorem entryAt_eq_some (entries : List ImageEntry) (i : Int)
    (h0 : 0 ≤ i) (h1 : i.toNat < entries.length) :
    entryAt entries i = some (entries.get ⟨i.toNat, h1⟩) := by
  unfold entryAt
  rw [dif_pos ⟨h0, h1⟩]

/-- Claim C4: for every valid index i, when the pre-load of entries[i]
succeeds, updateSlider commits exactly entries[i].src to the visible image
src and entries[i].caption to both the alt text and the caption element,
in the single onload commit, and restores opacity to 1; no throw occurs. -/
theorem updateSlider_success_commit (entries : List ImageEntry) (i : Int) (d : SliderDom)
    (h0 : 0 ≤ i) (h1 : i.toNat < entries.length) :
    (updateSlider entries i true d).1.imageSrc = (entries.get ⟨i.toNat, h1⟩).src ∧
    (updateSlider entries i true d).1.imageAlt = (entries.get ⟨i.toNat, h1⟩).caption ∧
    (updateSlider entries i true d).1.captionText = (entries.get ⟨i.toNat, h1⟩).caption ∧
    (updateSlider entries i true d).1.imageOpacity = "1" ∧
    (updateSlider entries i true d).2 = false := by
  unfold updateSlider
  rw [entryAt_eq_some entries i h0 h1]
  simp [onloadCommit]

/-- Witness for C4 at the hardcoded images list, index 1. -/
theorem updateSlider_success_commit_witness :
    (0 ≤ (1 : Int)) ∧ ((1 : Int).toNat < images.length) ∧
    ((updateSlider images 1 true pageAllPresent.dom).1.imageSrc = (images.get ⟨(1 : Int).toNat, by decide⟩).src ∧
     (updateSlider images 1 true pageAllPresent.dom).1.imageAlt = (images.get ⟨(1 : Int).toNat, by decide⟩).caption ∧
     (updateSlider images 1 true pageAllPresent.dom).1.captionText = (images.get ⟨(1 : Int).toNat, by decide⟩).caption ∧
     (updateSlider images 1 true pageAllPresent.dom).1.imageOpacity = "1" ∧
     (updateSlider images 1 true pageAllPresent.dom).2 = false) :=
  ⟨by decide, by decide,
   updateSlider_success_commit images 1 pageAllPresent.dom (by decide) (by decide)⟩

/-- Claim C5: for every valid index i, when the pre-load of entries[i]
fails, updateSlider commits the fixed error triple - empty image src, alt
text "Image failed to load" and caption text "Image failed to load" - and
the committed result is independent of which entry was requested. -/
theorem updateSlider_failure_commit (entries : List ImageEntry) (i j : Int) (d : SliderDom)
    (h0 : 0 ≤ i) (h1 : i.toNat < entries.length)
    (g0 : 0 ≤ j) (g1 : j.toNat < entries.length) :
    (updateSlider entries i false d).1.imageSrc = "" ∧
    (updateSlider entries i false d).1.imageAlt = "Image failed to load" ∧
    (updateSlider entries i false d).1.captionText = "Image failed to load" ∧
    (updateSlider entries i false d).2 = false ∧
    updateSlider entries i false d = updateSlider entries j false d := by
  unfold updateSlider
  rw [entryAt_eq_some entries i h0 h1, entryAt_eq_some entries j g0 g1]
  simp [onerrorCommit]

/-- Witness for C5 at the hardcoded images list, indices 0 and 2. -/
theorem updateSlider_failure_commit_witness :
    (0 ≤ (0 : Int)) ∧ ((0 : Int).toNat < images.length) ∧
    (0 ≤ (2 : Int)) ∧ ((2 : Int).toNat < images.length) ∧
    ((updateSlider images 0 false pageAllPresent.dom).1.imageSrc = "" ∧
     (updateSlider images 0 false pageAllPresent.dom).1.imageAlt = "Image failed to load" ∧
     (updateSlider images 0 false pageAllPresent.dom).1.captionText = "Image failed to load" ∧
     (updateSlider images 0 false pageAllPresent.dom).2 = false ∧
     updateSlider images 0 false pageAllPresent.dom = updateSlider images 2 false pageAllPresent.dom) :=
  ⟨by decide, by decide, by decide, by decide,
   updateSlider_failure_commit images 0 2 pageAllPresent.dom
     (by decide) (by decide) (by decide) (by decide)⟩

/-- Claim C9: when any of the four required slider elements is missing,
initializeImageSlider aborts after logging: the DOM is left exactly as it
was, no click handlers are attached, no pre-load is started, currentIndex
stays at its initial 0, and the console carries the element dump plus the
error message (the embedding is a total function, so no exception is
raised on this path). -/
theorem init_missing_element_inert (entries : List ImageEntry) (p : SliderPage)
    (h : ¬(p.hasSliderImage = true ∧ p.hasImageCaption = true ∧
           p.hasPrevButton = true ∧ p.hasNextButton = true)) :
    (initializeImageSlider entries p).dom = p.dom ∧
    (initializeImageSlider entries p).handlersAttached = false ∧
    (initializeImageSlider entries p).pendingLoadOf = none ∧
    (initializeImageSlider entries p).currentIndex = 0 ∧
    (initializeImageSlider entries p).logs =
      ["Image slider elements:", "Image slider elements not found"] := by
  have hb : (p.hasSliderImage && p.hasImageCaption && p.hasPrevButton && p.hasNextButton) = false := by
    cases hsi : p.hasSliderImage <;> cases hic : p.hasImageCaption <;>
      cases hpb : p.hasPrevButton <;> cases hnb : p.hasNextButton <;> simp_all
  unfold initializeImageSlider
  rw [hb]
  simp

/-- A concrete page on which the nextButton element is missing. -/
def pageMissingNext : SliderPage :=
  { pageAllPresent with hasNextButton := false }

/-- Witness for C9 at the hardcoded images list and a page missing the
next button. -/
theorem init_missing_element_inert_witness :
    (¬(pageMissingNext.hasSliderImage = true ∧ pageMissingNext.hasImageCaption = true ∧
       pageMissingNext.hasPrevButton = true ∧ pageMissingNext.hasNextButton = true)) ∧
    ((initializeImageSlider images pageMissingNext).dom = pageMissingNext.dom ∧
     (initializeImageSlider images pageMissingNext).handlersAttached = false ∧
     (initializeImageSlider images pageMissingNext).pendingLoadOf = none ∧
     (initializeImageSlider images pageMissingNext).currentIndex = 0 ∧
     (initializeImageSlider images pageMissingNext).logs =
       ["Image slider elements:", "Image slider elements not found"]) :=
  ⟨by decide, init_missing_element_inert images pageMissingNext (by decide)⟩

/-- On the empty list every JS index lookup is undefined. -/
theorem entryAt_nil (i : Int) : entryAt [] i = none := by
  unfold entryAt
  rw [dif_neg]
  intro hc
  exact absurd hc.2 (by simp)

/-- On the empty list updateSlider lowers the opacity and then throws a
TypeError reading .src of undefined. -/
theorem updateSlider_nil (i : Int) (loadOk : Bool) (d : SliderDom) :
    updateSlider [] i loadOk d = ({ d with imageOpacity := "0.5" }, true) := by
  unfold updateSlider
  rw [entryAt_nil]

/-- The currentIndex written by a prev click is goPrevious of the old one. -/
theorem clickPrevious_currentIndex (entries : List ImageEntry) (loadOk : Bool) (s : SliderState) :
    (clickPrevious entries loadOk s).1.currentIndex =
      goPrevious (entries.length : Int) s.currentIndex := rfl

/-- The currentIndex written by a next click is goNext of the old one. -/
theorem clickNext_currentIndex (entries : List ImageEntry) (loadOk : Bool) (s : SliderState) :
    (clickNext entries loadOk s).1.currentIndex =
      goNext (entries.length : Int) s.currentIndex := rfl

/-- The throw flag of a prev click comes from its updateSlider run. -/
theorem clickPrevious_snd (entries : List ImageEntry) (loadOk : Bool) (s : SliderState) :
    (clickPrevious entries loadOk s).2 =
      (updateSlider entries (goPrevious (entries.length : Int) s.currentIndex) loadOk s.dom).2 := rfl

/-- Running initializeImageSlider on the empty entry list with all four
elements present: fallback caption text, display none on image and both
buttons, handlers attached, no pre-load. -/
theorem initializeImageSlider_nil (p : SliderPage)
    (h1 : p.hasSliderImage = true) (h2 : p.hasImageCaption = true)
    (h3 : p.hasPrevButton = true) (h4 : p.hasNextButton = true) :
    initializeImageSlider [] p =
      { currentIndex := 0
        dom := { p.dom with captionText := "No images to display.",
                            imageDisplay := "none", prevDisplay := "none",
                            nextDisplay := "none" }
        handlersAttached := true
        logs := ["Image slider elements:"]
        pendingLoadOf := none } := by
  unfold initializeImageSlider
  rw [h1, h2, h3, h4]
  simp

/-- Claim C2 counterexample: at the concrete page pageAllPresent with
entries = [], initialization does not hide the caption element (its
display stays "block" instead of becoming "none"), and a previous-button
click does change the slider state, moving currentIndex from 0 to
entries.length - 1 = -1; so the conjunction claimed (caption hidden and
navigation state-preserving) is false. -/
theorem empty_entries_claim_false :
    ¬(((initializeImageSlider [] pageAllPresent).dom.captionDisplay = "none") ∧
      ((clickPrevious [] true ⟨0, (initializeImageSlider [] pageAllPresent).dom⟩).1.currentIndex = 0)) ∧
    (initializeImageSlider [] pageAllPresent).dom.captionDisplay = "block" ∧
    (clickPrevious [] true ⟨0, (initializeImageSlider [] pageAllPresent).dom⟩).1.currentIndex = -1 := by
  decide

/-- Claim C2 as amended: on empty entries, initialization hides three of
the four slider elements (display image, previous button, next button),
leaves the caption element's display untouched while setting its text to
"No images to display.", and still attaches both handlers; afterwards a
next click leaves currentIndex at 0, but a previous click sets
currentIndex to -1 and its render attempt throws, so navigation is not
inert. -/
theorem empty_entries_behavior (p : SliderPage) (loadOk : Bool) (d : SliderDom)
    (h : p.hasSliderImage = true ∧ p.hasImageCaption = true ∧
         p.hasPrevButton = true ∧ p.hasNextButton = true) :
    (initializeImageSlider [] p).dom.imageDisplay = "none" ∧
    (initializeImageSlider [] p).dom.prevDisplay = "none" ∧
    (initializeImageSlider [] p).dom.nextDisplay = "none" ∧
    (initializeImageSlider [] p).dom.captionDisplay = p.dom.captionDisplay ∧
    (initializeImageSlider [] p).dom.captionText = "No images to display." ∧
    (initializeImageSlider [] p).handlersAttached = true ∧
    (clickNext [] loadOk ⟨0, d⟩).1.currentIndex = 0 ∧
    (clickPrevious [] loadOk ⟨0, d⟩).1.currentIndex = -1 ∧
    (clickPrevious [] loadOk ⟨0, d⟩).2 = true := by
  obtain ⟨h1, h2, h3, h4⟩ := h
  rw [initializeImageSlider_nil p h1 h2 h3 h4]
  refine ⟨rfl, rfl, rfl, rfl, rfl, rfl, ?_, ?_, ?_⟩
  · rw [clickNext_currentIndex]
    show goNext 0 0 = 0
    decide
  · rw [clickPrevious_currentIndex]
    show goPrevious 0 0 = -1
    decide
  · rw [clickPrevious_snd, updateSlider_nil]

/-- Witness for the amended C2 at the concrete page pageAllPresent. -/
theorem empty_entries_behavior_witness :
    (pageAllPresent.hasSliderImage = true ∧ pageAllPresent.hasImageCaption = true ∧
     pageAllPresent.hasPrevButton = true ∧ pageAllPresent.hasNextButton = true) ∧
    ((initializeImageSlider [] pageAllPresent).dom.imageDisplay = "none" ∧
     (initializeImageSlider [] pageAllPresent).dom.prevDisplay = "none" ∧
     (initializeImageSlider [] pageAllPresent).dom.nextDisplay = "none" ∧
     (initializeImageSlider [] pageAllPresent).dom.captionDisplay = pageAllPresent.dom.captionDisplay ∧
     (initializeImageSlider [] pageAllPresent).dom.captionText = "No images to display." ∧
     (initializeImageSlider [] pageAllPresent).handlersAttached = true ∧
     (clickNext [] false ⟨0, pageAllPresent.dom⟩).1.currentIndex = 0 ∧
     (clickPrevious [] false ⟨0, pageAllPresent.dom⟩).1.currentIndex = -1 ∧
     (clickPrevious [] false ⟨0, pageAllPresent.dom⟩).2 = true) :=
  ⟨by decide, empty_entries_behavior pageAllPresent false pageAllPresent.dom (by decide)⟩

/-- The modal-related DOM state that setupImageFullscreen in
src/unnamed/part_000 reads and writes: the modal root display, the
fullscreen image src, the modal caption text, and document.body.style.overflow. -/
structure ModalState where
  display : String
  imageSrc : String
  captionText : String
  bodyOverflow : String
deriving DecidableEq

/-- A registered clickable image as the onclick handler of
setupImageFullscreen sees it: its src, its alt (none models a missing or
undefined alt property, some models the string value), and the result of
this.closest of the showcase-item selector - none when no such ancestor
exists, some q when it does, where q is in turn the textContent of the
dedicated .image-caption child found by querySelector, or none when the
ancestor has no such child. -/
structure ClickableImage where
  src : String
  alt : Option String
  closestShowcaseItem : Option (Option String)
deriving DecidableEq

/-- The optional-chaining lookup
this.closest(selector)?.querySelector(selector2): a caption text is found
only when both the ancestor and its caption child exist. -/
def nearbyCaption (img : ClickableImage) : Option String :=
  match img.closestShowcaseItem with
  | none => none
  | some q => q

/-- The onclick handler installed on every registered image by
setupImageFullscreen: shows the modal, copies the image src, computes the
caption as this.alt or the empty string, overridden by the nearby caption
text when one exists, and suppresses page scroll. -/
def onImageClicked (img : ClickableImage) (m : ModalState) : ModalState :=
  let captionContent := img.alt.getD ""
  let captionContent :=
    match nearbyCaption img with
    | some t => t
    | none => captionContent
  { m with display := "block", imageSrc := img.src,
           captionText := captionContent, bodyOverflow := "hidden" }

/-- The close path shared by the close button, the backdrop click and the
Escape key: hide the modal and restore page scroll. -/
def closeModal (m : ModalState) : ModalState :=
  { m with display := "none", bodyOverflow := "auto" }

/-- The keydown listener of setupImageFullscreen: close only when the key
is Escape and the modal is currently shown. -/
def onKeydown (key : String) (m : ModalState) : ModalState :=
  if key = "Escape" ∧ m.display = "block" then closeModal m else m

/-- The target of a click delivered to the modal root: either the modal
root itself (the backdrop) or the displayed fullscreen image inside it. -/
inductive ModalClickTarget where
  | backdrop
  | displayedImage
deriving DecidableEq

/-- The modal.onclick handler of setupImageFullscreen: close only when
event.target is the modal root itself. -/
def onModalClick (t : ModalClickTarget) (m : ModalState) : ModalState :=
  if t = ModalClickTarget.backdrop then closeModal m else m

/-- Claim C6: opening the viewer computes the modal caption as the nearby
dedicated caption text when one exists, otherwise the alt text, otherwise
the empty string; in particular an image with neither yields the empty
caption, which is not the string "undefined" (and the embedding is a total
function, so no exception is raised). -/
theorem fullscreen_caption_fallback (img : ClickableImage) (m : ModalState) :
    ((onImageClicked img m).captionText =
      match nearbyCaption img with
      | some t => t
      | none =>
        match img.alt with
        | some a => a
        | none => "") ∧
    (nearbyCaption img = none → img.alt = none →
      (onImageClicked img m).captionText = "" ∧
      (onImageClicked img m).captionText ≠ "undefined") := by
  constructor
  · unfold onImageClicked
    cases hq : nearbyCaption img <;> cases ha : img.alt <;> simp [hq, ha]
  · intro hq ha
    unfold onImageClicked
    rw [hq, ha]
    refine ⟨rfl, ?_⟩
    show ("" : String) ≠ "undefined"
    decide

/-- Witness for C6 at a concrete image with no ancestor and no alt. -/
theorem fullscreen_caption_fallback_witness :
    nearbyCaption ⟨"x.png", none, none⟩ = none ∧
    (⟨"x.png", none, none⟩ : ClickableImage).alt = none ∧
    ((onImageClicked ⟨"x.png", none, none⟩ ⟨"none", "", "", "auto"⟩).captionText = "" ∧
     (onImageClicked ⟨"x.png", none, none⟩ ⟨"none", "", "", "auto"⟩).captionText ≠ "undefined") :=
  ⟨rfl, rfl,
   (fullscreen_caption_fallback ⟨"x.png", none, none⟩ ⟨"none", "", "", "auto"⟩).2 rfl rfl⟩

/-- Claim C7: pressing Escape while the modal is not shown leaves the
modal state (display, image, caption, scroll suppression) entirely
unchanged and, the handler being a total function, raises no exception;
pressing Escape while the modal is shown closes it and restores scroll. -/
theorem escape_key_behavior (m mv : ModalState)
    (h : m.display ≠ "block") (hv : mv.display = "block") :
    onKeydown "Escape" m = m ∧
    (onKeydown "Escape" mv).display = "none" ∧
    (onKeydown "Escape" mv).bodyOverflow = "auto" := by
  refine ⟨?_, ?_, ?_⟩
  · unfold onKeydown
    rw [if_neg]
    intro hc
    exact h hc.2
  · unfold onKeydown
    rw [if_pos ⟨rfl, hv⟩]
    rfl
  · unfold onKeydown
    rw [if_pos ⟨rfl, hv⟩]
    rfl

/-- Witness for C7 at concrete hidden and shown modal states. -/
theorem escape_key_behavior_witness :
    ((⟨"none", "a.png", "A", "auto"⟩ : ModalState).display ≠ "block") ∧
    ((⟨"block", "b.png", "B", "hidden"⟩ : ModalState).display = "block") ∧
    (onKeydown "Escape" ⟨"none", "a.png", "A", "auto"⟩ = ⟨"none", "a.png", "A", "auto"⟩ ∧
     (onKeydown "Escape" ⟨"block", "b.png", "B", "hidden"⟩).display = "none" ∧
     (onKeydown "Escape" ⟨"block", "b.png", "B", "hidden"⟩).bodyOverflow = "auto") :=
  ⟨by decide, rfl,
   escape_key_behavior ⟨"none", "a.png", "A", "auto"⟩ ⟨"block", "b.png", "B", "hidden"⟩
     (by decide) rfl⟩

/-- Claim C8: while the modal is shown, a click whose target is the modal
backdrop itself closes the modal (display none, page scroll restored to
auto), whereas a click whose target is the displayed fullscreen image
leaves the state unchanged, in particular still shown. -/
theorem modal_click_close_behavior (m : ModalState) (h : m.display = "block") :
    (onModalClick ModalClickTarget.backdrop m).display = "none" ∧
    (onModalClick ModalClickTarget.backdrop m).bodyOverflow = "auto" ∧
    onModalClick ModalClickTarget.displayedImage m = m ∧
    (onModalClick ModalClickTarget.displayedImage m).display = "block" := by
  refine ⟨rfl, rfl, ?_, ?_⟩
  · unfold onModalClick
    rw [if_neg (by decide)]
  · unfold onModalClick
    rw [if_neg (by decide)]
    exact h

/-- Witness for C8 at a concrete shown modal state. -/
theorem modal_click_close_behavior_witness :
    ((⟨"block", "b.png", "B", "hidden"⟩ : ModalState).display = "block") ∧
    ((onModalClick ModalClickTarget.backdrop ⟨"block", "b.png", "B", "hidden"⟩).display = "none" ∧
     (onModalClick ModalClickTarget.backdrop ⟨"block", "b.png", "B", "hidden"⟩).bodyOverflow = "auto" ∧
     onModalClick ModalClickTarget.displayedImage ⟨"block", "b.png", "B", "hidden"⟩ = ⟨"block", "b.png", "B", "hidden"⟩ ∧
     (onModalClick ModalClickTarget.displayedImage ⟨"block", "b.png", "B", "hidden"⟩).display = "block") :=
  ⟨rfl, modal_click_close_behavior ⟨"block", "b.png", "B", "hidden"⟩ rfl⟩
